import Mathlib

/-!
Shallow embedding of the `lab8` Flask application (src/app.py, src/forms.py,
src/models.py): a student-record CRUD service gated by username/password
authentication.  Routes are modelled as pure functions from an explicit
authentication state and an explicit persistence store to a `RouteResult`
(response, flash messages, new store, new auth state).  WTForms validation is
modelled field by field following the validator chains declared in
src/forms.py.
-/

namespace Lab8

/-- Student row (src/models.py): `roll` is the integer primary key,
`name` and `dept` are strings. -/
structure Student where
  roll : Int
  name : String
  dept : String
deriving Repr, DecidableEq

/-- Modelled from the spec: the Password Hasher (§4.1) is the `flask_bcrypt`
collaborator, which is not part of the repository source.  A hash value is
either a well-formed salted digest produced by `hashPw` or a malformed
string that the hasher never produced. -/
inductive HashValue where
  | wellFormed (salt : Nat) (digest : Nat)
  | malformed (raw : String)
deriving Repr, DecidableEq

/-- Modelled from the spec: the digest a given salt and plaintext produce. -/
def hashDigest (salt : Nat) (plaintext : String) : Nat :=
  plaintext.toList.foldl (fun a c => a * 131 + c.toNat) (salt + 7)

/-- Modelled from the spec: `hash(plaintext)` with the nondeterministic salt
made an explicit input. -/
def hashPw (salt : Nat) (plaintext : String) : HashValue :=
  .wellFormed salt (hashDigest salt plaintext)

/-- Modelled from the spec: `verify(plaintext, hashValue)` recomputes the
digest with the salt embedded in a well-formed hash value and returns false
(it is a total Boolean function, so it never throws) on a malformed one. -/
def verifyPw (plaintext : String) : HashValue → Bool
  | .wellFormed salt digest => digest == hashDigest salt plaintext
  | .malformed _ => false

/-- User row (src/models.py): auto-generated integer primary key, unique
username, stored password hash. -/
structure User where
  id : Nat
  username : String
  passwordHash : HashValue
deriving Repr, DecidableEq

/-- The persistence collaborator: the student table and the user table. -/
structure Store where
  students : List Student
  users : List User
deriving Repr, DecidableEq

/-- Flask-Login authentication state of the request context. -/
inductive AuthState where
  | anonymous
  | authenticated (userId : Nat)
deriving Repr, DecidableEq

/-- One flash message with its category, as produced by `flash(msg, cat)`. -/
structure Flash where
  message : String
  category : String
deriving Repr, DecidableEq

/-- Response surface of a route: a redirect, a redirect to the login view
carrying the originally requested path (flask_login with
`login_view = login`), a rendered template, a 404, or a 500. -/
inductive Response where
  | redirect (target : String)
  | redirectLogin (nextPath : String)
  | render (template : String)
  | notFound
  | serverError
deriving Repr, DecidableEq

/-- Result of dispatching one request. -/
structure RouteResult where
  response : Response
  flashes : List Flash
  store : Store
  auth : AuthState
deriving Repr, DecidableEq

/-! ## Form validation (src/forms.py)

WTForms runs every field independently and collects messages; within one
field, `DataRequired` raises `StopValidation` (cutting the rest of the
chain) while `Length`, `EqualTo` and inline `validate_<field>` methods
raise `ValidationError`, which is recorded and the chain continues. -/

/-- `DataRequired` on a string field: fails when the data is empty or, after
stripping whitespace, empty — i.e. when every character is whitespace. -/
def dataRequiredStr (s : String) : Bool :=
  !(s.toList.all Char.isWhitespace)

/-- `DataRequired` on an `IntegerField`: the data is `none` when missing or
unparseable; `0` is falsy in Python, so it also fails the check. -/
def dataRequiredInt : Option Int → Bool
  | none => false
  | some n => n != 0

/-- `Length(min=lo, max=hi)` validator on a string already known non-falsy. -/
def lengthOk (lo hi : Nat) (s : String) : Bool :=
  lo ≤ s.length && s.length ≤ hi

/-- `StudentForm.validate_roll` (src/forms.py): looks up a student with the
submitted roll and then — by the comments in the source, deliberately
simplified — does `pass` in both cases, contributing no validation error. -/
def validate_roll (students : List Student) (r : Int) : List String :=
  match students.find? (fun s => s.roll == r) with
  | some _ => []
  | none => []

/-- Errors of `StudentForm.roll`: `DataRequired`, then the no-op
`validate_roll`. -/
def rollErrors (students : List Student) (r : Option Int) : List String :=
  if dataRequiredInt r then validate_roll students (r.getD 0)
  else ["This field is required."]

/-- Errors of `StudentForm.name` and `StudentForm.dept`: `DataRequired`,
then `Length(min=2, max=100)`. -/
def nameFieldErrors (s : String) : List String :=
  if dataRequiredStr s then
    if lengthOk 2 100 s then []
    else ["Field must be between 2 and 100 characters long."]
  else ["This field is required."]

/-- All `StudentForm` errors (roll, name, dept), collected per field. -/
def studentFormErrors (students : List Student) (r : Option Int)
    (name dept : String) : List String :=
  rollErrors students r ++ nameFieldErrors name ++ nameFieldErrors dept

/-- Errors of `RegistrationForm.username`: `DataRequired`,
`Length(min=4, max=20)`, then `validate_username`, which rejects a username
already present in the user table. -/
def usernameErrors (users : List User) (u : String) : List String :=
  if dataRequiredStr u then
    (if lengthOk 4 20 u then []
     else ["Field must be between 4 and 20 characters long."]) ++
    (match users.find? (fun x => x.username == u) with
     | some _ => ["That username is already taken. Please choose another."]
     | none => [])
  else ["This field is required."]

/-- Errors of `RegistrationForm.password`: `DataRequired`, `Length(min=6)`. -/
def passwordErrors (p : String) : List String :=
  if dataRequiredStr p then
    if 6 ≤ p.length then [] else ["Field must be at least 6 characters long."]
  else ["This field is required."]

/-- Errors of `RegistrationForm.confirm_password`: `DataRequired`,
`EqualTo(password)`. -/
def confirmPasswordErrors (p c : String) : List String :=
  if dataRequiredStr c then
    if c == p then [] else ["Field must be equal to password."]
  else ["This field is required."]

/-- All `RegistrationForm` errors. -/
def registrationFormErrors (users : List User) (u p c : String) :
    List String :=
  usernameErrors users u ++ passwordErrors p ++ confirmPasswordErrors p c

/-- `LoginForm` validity: username and password merely `DataRequired`. -/
def loginFormValid (u p : String) : Bool :=
  dataRequiredStr u && dataRequiredStr p

/-! ## Routes (src/app.py)

Each guarded route is split into the `login_required` guard and a handler.
`login_manager.login_view = login` makes the guard redirect an anonymous
caller to the login page carrying the originally requested path, and flash
the flask_login login message with the configured `info` category. -/

/-- The flash emitted by `login_required` when it refuses an anonymous
request (flask_login default message, category configured to `info`). -/
def loginRequiredFlash : Flash :=
  ⟨"Please log in to access this page.", "info"⟩

/-- Refusal result of the `login_required` guard on an anonymous request:
redirect to the login view with the requested path as the resume
destination; the store is untouched. -/
def guardRefused (store : Store) (requestedPath : String) : RouteResult :=
  ⟨.redirectLogin requestedPath, [loginRequiredFlash], store, .anonymous⟩

/-- Next auto-increment primary key for the user table. -/
def nextUserId (users : List User) : Nat :=
  users.foldl (fun m u => max m u.id) 0 + 1

/-- Insert into the student table, enforcing the `roll` primary-key
constraint declared in src/models.py: committing a duplicate raises
`IntegrityError` (surfaced by the 500 handler, which rolls back), so the
insert yields `none` and no row is stored. -/
def insertStudent (students : List Student) (s : Student) :
    Option (List Student) :=
  if students.any (fun t => t.roll == s.roll) then none
  else some (students ++ [s])

/-- `Student.query.get_or_404(roll)`: primary-key lookup. -/
def get_or_404 (students : List Student) (roll : Int) : Option Student :=
  students.find? (fun s => s.roll == roll)

/-- `register` route (src/app.py lines 59-74).  An authenticated caller is
redirected away; otherwise on a valid form the password is hashed (the
bcrypt salt is an explicit input) and the new user committed. -/
def register (state : AuthState) (store : Store) (salt : Nat)
    (username password confirm : String) : RouteResult :=
  match state with
  | .authenticated _ => ⟨.redirect "/view_students", [], store, state⟩
  | .anonymous =>
    if registrationFormErrors store.users username password confirm = [] then
      let user : User :=
        ⟨nextUserId store.users, username, hashPw salt password⟩
      ⟨.redirect "/login",
       [⟨"Your account has been created! You are now able to log in.",
         "success"⟩],
       { store with users := store.users ++ [user] }, .anonymous⟩
    else ⟨.render "register.html", [], store, .anonymous⟩

/-- `login` route (src/app.py lines 76-94).  `user and check_password_hash`
collapses a missing username and a failed verification into one `else`
branch with a single generic flash. -/
def login (state : AuthState) (store : Store)
    (username password : String) (remember : Bool)
    (nextPage : Option String) : RouteResult :=
  match state with
  | .authenticated _ => ⟨.redirect "/view_students", [], store, state⟩
  | .anonymous =>
    if loginFormValid username password then
      let failed : RouteResult :=
        ⟨.render "login.html",
         [⟨"Login Unsuccessful. Please check username and password.",
           "danger"⟩],
         store, .anonymous⟩
      match store.users.find? (fun u => u.username == username) with
      | some user =>
        if verifyPw password user.passwordHash then
          ⟨(match nextPage with
            | some p => .redirect p
            | none => .redirect "/view_students"),
           [⟨"Login successful!", "success"⟩], store,
           .authenticated user.id⟩
        else failed
      | none => failed
    else ⟨.render "login.html", [], store, .anonymous⟩

/-- `logout` route (src/app.py lines 96-100): not guarded; unconditionally
clears the session and redirects to the index page. -/
def logout (state : AuthState) (store : Store) : RouteResult :=
  ⟨.redirect "/index", [⟨"You have been logged out.", "info"⟩], store,
   .anonymous⟩

/-- Handler part of `add_student` (src/app.py lines 109-127), reached only
through the guard: validate the form, then commit the new student. -/
def add_student_handler (state : AuthState) (store : Store)
    (roll : Option Int) (name dept : String) : RouteResult :=
  match roll with
  | some r =>
    if studentFormErrors store.students (some r) name dept = [] then
      match insertStudent store.students ⟨r, name, dept⟩ with
      | some students =>
        ⟨.redirect "/view_students",
         [⟨"Student " ++ name ++ " added successfully!", "success"⟩],
         { store with students := students }, state⟩
      | none => ⟨.serverError, [], store, state⟩
    else ⟨.render "addstudent.html", [], store, state⟩
  | none => ⟨.render "addstudent.html", [], store, state⟩

/-- `add_student` route: `login_required` guard, then the handler. -/
def add_student (state : AuthState) (store : Store) (roll : Option Int)
    (name dept : String) : RouteResult :=
  match state with
  | .anonymous => guardRefused store "/add_student"
  | .authenticated _ => add_student_handler state store roll name dept

/-- Handler part of `view_students` (src/app.py lines 129-134). -/
def view_students_handler (state : AuthState) (store : Store) :
    RouteResult :=
  ⟨.render "viewstudents.html", [], store, state⟩

/-- `view_students` route: guard, then render the full student list. -/
def view_students (state : AuthState) (store : Store) : RouteResult :=
  match state with
  | .anonymous => guardRefused store "/view_students"
  | .authenticated _ => view_students_handler state store

/-- Handler part of `update_student` (src/app.py lines 136-158):
`get_or_404`, then on a valid form assign only `name` and `dept` of the
fetched row — the submitted `roll` field is never written back. -/
def update_student_handler (state : AuthState) (store : Store) (roll : Int)
    (formRoll : Option Int) (name dept : String) : RouteResult :=
  match get_or_404 store.students roll with
  | none => ⟨.notFound, [], store, state⟩
  | some _ =>
    if studentFormErrors store.students formRoll name dept = [] then
      ⟨.redirect "/view_students",
       [⟨"Student " ++ name ++ " updated successfully!", "success"⟩],
       { store with students :=
          store.students.map (fun s =>
            if s.roll == roll then ⟨s.roll, name, dept⟩ else s) }, state⟩
    else ⟨.render "update_student.html", [], store, state⟩

/-- `update_student` route: guard, then the handler. -/
def update_student (state : AuthState) (store : Store) (roll : Int)
    (formRoll : Option Int) (name dept : String) : RouteResult :=
  match state with
  | .anonymous =>
    guardRefused store ("/update_student/" ++ toString roll)
  | .authenticated _ =>
    update_student_handler state store roll formRoll name dept

/-- Handler part of `delete_student` (src/app.py lines 161-169):
`get_or_404`, then delete the row with that primary key. -/
def delete_student_handler (state : AuthState) (store : Store)
    (roll : Int) : RouteResult :=
  match get_or_404 store.students roll with
  | none => ⟨.notFound, [], store, state⟩
  | some s =>
    ⟨.redirect "/view_students",
     [⟨"Student " ++ s.name ++ " (Roll: " ++ toString s.roll ++
       ") has been deleted.", "success"⟩],
     { store with students :=
        store.students.filter (fun t => t.roll != roll) }, state⟩

/-- `delete_student` route: guard, then the handler. -/
def delete_student (state : AuthState) (store : Store) (roll : Int) :
    RouteResult :=
  match state with
  | .anonymous =>
    guardRefused store ("/delete_student/" ++ toString roll)
  | .authenticated _ => delete_student_handler state store roll

/-! ## Helper lemmas about the store operations -/

/-- The custom roll validator of `StudentForm` never produces an error,
whatever the store contains: both branches of the source are `pass`. -/
theorem validate_roll_eq_nil (l : List Student) (r : Int) :
    validate_roll l r = [] := by
  unfold validate_roll
  cases l.find? (fun s => s.roll == r) <;> rfl

/-- The whole `StudentForm` validates whenever the roll is a nonzero
integer and name and dept pass their field rules. -/
theorem studentFormErrors_eq_nil (l : List Student) (r : Int)
    (name dept : String) (hr : r ≠ 0)
    (hn : nameFieldErrors name = []) (hd : nameFieldErrors dept = []) :
    studentFormErrors l (some r) name dept = [] := by
  unfold studentFormErrors rollErrors dataRequiredInt
  simp [hr, validate_roll_eq_nil, hn, hd]

/-- A primary-key lookup returning `none` means no row has that roll. -/
theorem get_or_404_eq_none_iff (l : List Student) (r : Int) :
    get_or_404 l r = none ↔ ∀ s ∈ l, s.roll ≠ r := by
  unfold get_or_404
  rw [List.find?_eq_none]
  constructor
  · intro h s hs
    have := h s hs
    simpa using this
  · intro h s hs
    simpa using h s hs

/-- If no row has the roll, neither does `any` find it. -/
theorem any_roll_eq_false (l : List Student) (r : Int)
    (h : get_or_404 l r = none) :
    l.any (fun t => t.roll == r) = false := by
  rw [get_or_404_eq_none_iff] at h
  rw [List.any_eq_false]
  intro x hx
  simpa using h x hx

/-- Looking up a freshly inserted row finds exactly that row. -/
theorem get_or_404_append (l : List Student) (s : Student)
    (h : get_or_404 l s.roll = none) :
    get_or_404 (l ++ [s]) s.roll = some s := by
  unfold get_or_404 at h ⊢
  rw [List.find?_append, h]
  simp

/-- Rewriting the name and dept of every row with the given roll commutes
with the primary-key lookup. -/
theorem get_or_404_map_update (l : List Student) (r : Int)
    (name dept : String) :
    get_or_404
        (l.map (fun s => if s.roll == r then ⟨s.roll, name, dept⟩ else s)) r
      = (get_or_404 l r).map (fun s => ⟨s.roll, name, dept⟩) := by
  unfold get_or_404
  rw [List.find?_map]
  have hpf :
      ((fun s => s.roll == r) ∘
        (fun s => if s.roll == r then (⟨s.roll, name, dept⟩ : Student)
                  else s))
        = fun s : Student => s.roll == r := by
    funext s
    by_cases h : s.roll = r <;> simp [h]
  rw [hpf]
  cases hfind : List.find? (fun s => s.roll == r) l with
  | none => rfl
  | some s0 =>
    have hs0 : (s0.roll == r) = true :=
      @List.find?_some _ (fun s => s.roll == r) s0 l hfind
    have heq : s0.roll = r := by simpa using hs0
    simp [heq]

/-- The update map touches no roll value. -/
theorem map_roll_after_update (l : List Student) (r : Int)
    (name dept : String) :
    ((l.map (fun s => if s.roll == r then ⟨s.roll, name, dept⟩ else s)).map
        (fun s => s.roll))
      = l.map (fun s => s.roll) := by
  rw [List.map_map]
  apply List.map_congr_left
  intro s _
  by_cases h : s.roll = r <;> simp [h]

/-- After deleting a roll, looking it up fails. -/
theorem get_or_404_filter_out (l : List Student) (r : Int) :
    get_or_404 (l.filter (fun t => t.roll != r)) r = none := by
  rw [get_or_404_eq_none_iff]
  intro s hs
  have := (List.mem_filter.mp hs).2
  simpa using this

/-! ## Claims -/

/-- Claim C1: the claim states that `create` on an already-present roll
fails with `ConflictError` and inserts no record.  On the code, with a
student of roll 7 already stored, `validate_roll` contributes no error (its
body is `pass`), the whole form validates, and the request reaches the
store, where the duplicate primary key aborts the commit as a generic 500
server error — no `ConflictError` is ever produced, though indeed no record
is inserted. -/
theorem c1_duplicate_roll_code_behavior :
    validate_roll [⟨7, "Bob", "EE"⟩] 7 = [] ∧
    studentFormErrors [⟨7, "Bob", "EE"⟩] (some 7) "Alice" "CS" = [] ∧
    add_student (.authenticated 1) ⟨[⟨7, "Bob", "EE"⟩], []⟩ (some 7)
        "Alice" "CS"
      = ⟨.serverError, [], ⟨[⟨7, "Bob", "EE"⟩], []⟩, .authenticated 1⟩ := by
  exact ⟨rfl, by decide, by decide⟩

/-- Claim C2, counterexample to the quoted message text: the failure flash
the code produces is the string
`Login Unsuccessful. Please check username and password.`, not
`invalid username or password` as the claim asserts. -/
theorem c2_message_text_counterexample :
    (login .anonymous ⟨[], [⟨1, "alice", hashPw 3 "correcthorse"⟩]⟩
        "alice" "wrongpass" false none).flashes
      = [⟨"Login Unsuccessful. Please check username and password.",
          "danger"⟩] ∧
    ("Login Unsuccessful. Please check username and password." : String)
      ≠ "invalid username or password" := by
  exact ⟨by decide, by decide⟩

/-- Claim C2 (amended): for every pair of failed login attempts — one with
an existing username and a wrong password, the other with a nonexistent
username — the produced results are byte-identical in every user-visible
component (response, flashes, store, auth state), and the single generic
flash is `Login Unsuccessful. Please check username and password.`. -/
theorem c2_login_failure_indistinguishable (store : Store)
    (u1 p1 u2 p2 : String) (r1 r2 : Bool) (n1 n2 : Option String)
    (hv1 : loginFormValid u1 p1 = true) (hv2 : loginFormValid u2 p2 = true)
    (user : User)
    (hu1 : store.users.find? (fun u => u.username == u1) = some user)
    (hpw : verifyPw p1 user.passwordHash = false)
    (hu2 : store.users.find? (fun u => u.username == u2) = none) :
    login .anonymous store u1 p1 r1 n1 = login .anonymous store u2 p2 r2 n2 ∧
    (login .anonymous store u1 p1 r1 n1).flashes
      = [⟨"Login Unsuccessful. Please check username and password.",
          "danger"⟩] := by
  unfold login
  simp [hv1, hv2, hu1, hu2, hpw]

/-- Claim C2, witness: concrete instantiation of the amended theorem with
user `alice`, wrong password `wrongpass`, and nonexistent user `nobody`. -/
theorem c2_login_failure_indistinguishable_witness :
    login .anonymous ⟨[], [⟨1, "alice", hashPw 3 "correcthorse"⟩]⟩
        "alice" "wrongpass" false none
      = login .anonymous ⟨[], [⟨1, "alice", hashPw 3 "correcthorse"⟩]⟩
          "nobody" "whatever" true (some "/add_student") ∧
    (login .anonymous ⟨[], [⟨1, "alice", hashPw 3 "correcthorse"⟩]⟩
        "alice" "wrongpass" false none).flashes
      = [⟨"Login Unsuccessful. Please check username and password.",
          "danger"⟩] :=
  c2_login_failure_indistinguishable
    ⟨[], [⟨1, "alice", hashPw 3 "correcthorse"⟩]⟩
    "alice" "wrongpass" "nobody" "whatever" false true none
    (some "/add_student") (by decide) (by decide)
    ⟨1, "alice", hashPw 3 "correcthorse"⟩ (by decide) (by decide) (by decide)

/-- Claim C9: for every plaintext and every malformed hash value, `verify`
returns false; being a total Boolean function of the embedded hasher, it
never throws. -/
theorem c9_verify_malformed_returns_false (plaintext raw : String) :
    verifyPw plaintext (.malformed raw) = false := rfl

/-- Claim C10: logout is not guarded — from either auth state it succeeds,
produces the same result, leaves the state `Anonymous`, and is idempotent:
a second logout from the resulting state yields the same result. -/
theorem c10_logout_unguarded_idempotent (state : AuthState) (store : Store)
    (uid : Nat) :
    logout state store
      = ⟨.redirect "/index", [⟨"You have been logged out.", "info"⟩],
         store, .anonymous⟩ ∧
    (logout state store).auth = .anonymous ∧
    logout .anonymous store = logout (.authenticated uid) store ∧
    logout ((logout state store).auth) ((logout state store).store)
      = logout state store := ⟨rfl, rfl, rfl, rfl⟩

/-- Claim C3: every guarded route (add, view, update, delete) invoked in
the `Anonymous` state refuses the operation with no side effect on the
store and redirects to the login view carrying the originally requested
path; in the `Authenticated` state the guarded handler proceeds; and a
subsequent successful login with a captured `next` destination redirects
there. -/
theorem c3_login_required_guard (store : Store) (roll : Option Int)
    (r : Int) (formRoll : Option Int) (name dept : String) (uid : Nat) :
    add_student .anonymous store roll name dept
      = guardRefused store "/add_student" ∧
    view_students .anonymous store = guardRefused store "/view_students" ∧
    update_student .anonymous store r formRoll name dept
      = guardRefused store ("/update_student/" ++ toString r) ∧
    delete_student .anonymous store r
      = guardRefused store ("/delete_student/" ++ toString r) ∧
    add_student (.authenticated uid) store roll name dept
      = add_student_handler (.authenticated uid) store roll name dept ∧
    view_students (.authenticated uid) store
      = view_students_handler (.authenticated uid) store ∧
    update_student (.authenticated uid) store r formRoll name dept
      = update_student_handler (.authenticated uid) store r formRoll
          name dept ∧
    delete_student (.authenticated uid) store r
      = delete_student_handler (.authenticated uid) store r ∧
    ∀ (user : User) (pw : String) (rem : Bool) (p : String),
      loginFormValid user.username pw = true →
      store.users.find? (fun u => u.username == user.username)
        = some user →
      verifyPw pw user.passwordHash = true →
      login .anonymous store user.username pw rem (some p)
        = ⟨.redirect p, [⟨"Login successful!", "success"⟩], store,
           .authenticated user.id⟩ := by
  refine ⟨rfl, rfl, rfl, rfl, rfl, rfl, rfl, rfl, ?_⟩
  intro user pw rem p hv hfind hpw
  unfold login
  simp [hv, hfind, hpw]

/-- Claim C3, witness: an anonymous request to add a student is refused
with the destination captured, and a login carrying that destination
resumes there. -/
theorem c3_login_required_guard_witness :
    add_student .anonymous ⟨[], [⟨1, "bob", hashPw 5 "secret123"⟩]⟩
        (some 7) "Alice" "CS"
      = guardRefused ⟨[], [⟨1, "bob", hashPw 5 "secret123"⟩]⟩
          "/add_student" ∧
    login .anonymous ⟨[], [⟨1, "bob", hashPw 5 "secret123"⟩]⟩
        "bob" "secret123" false (some "/add_student")
      = ⟨.redirect "/add_student", [⟨"Login successful!", "success"⟩],
         ⟨[], [⟨1, "bob", hashPw 5 "secret123"⟩]⟩, .authenticated 1⟩ := by
  have h := c3_login_required_guard
    ⟨[], [⟨1, "bob", hashPw 5 "secret123"⟩]⟩ (some 7) 7 (some 7)
    "Alice" "CS" 1
  exact ⟨h.1,
    h.2.2.2.2.2.2.2.2 ⟨1, "bob", hashPw 5 "secret123"⟩ "secret123" false
      "/add_student" (by decide) (by decide) (by decide)⟩

/-- Claim C4: a registration attempt reusing an existing username leaves
the user table unchanged in every auth state, re-renders the registration
form, and the username field carries a validation error. -/
theorem c4_duplicate_username_rejected (store : Store) (salt : Nat)
    (username password confirm : String) (user : User)
    (hmem : store.users.find? (fun x => x.username == username)
      = some user) :
    (∀ state,
      (register state store salt username password confirm).store
        = store) ∧
    register .anonymous store salt username password confirm
      = ⟨.render "register.html", [], store, .anonymous⟩ ∧
    usernameErrors store.users username ≠ [] := by
  have hne : usernameErrors store.users username ≠ [] := by
    unfold usernameErrors
    cases hdr : dataRequiredStr username with
    | false => simp
    | true => simp [hmem]
  have hreg :
      registrationFormErrors store.users username password confirm
        ≠ [] := by
    unfold registrationFormErrors
    intro h
    rcases List.append_eq_nil.mp h with ⟨h1, -⟩
    exact hne (List.append_eq_nil.mp h1).1
  refine ⟨?_, ?_, hne⟩
  · intro state
    cases state with
    | authenticated uid => rfl
    | anonymous =>
      unfold register
      simp [hreg]
  · unfold register
    simp [hreg]

/-- Claim C4, witness: reusing the registered username `alice` changes
nothing and yields a validation error. -/
theorem c4_duplicate_username_rejected_witness :
    (∀ state,
      (register state ⟨[], [⟨1, "alice", hashPw 2 "pw1234"⟩]⟩ 9
          "alice" "hunter22" "hunter22").store
        = ⟨[], [⟨1, "alice", hashPw 2 "pw1234"⟩]⟩) ∧
    register .anonymous ⟨[], [⟨1, "alice", hashPw 2 "pw1234"⟩]⟩ 9
        "alice" "hunter22" "hunter22"
      = ⟨.render "register.html", [],
         ⟨[], [⟨1, "alice", hashPw 2 "pw1234"⟩]⟩, .anonymous⟩ ∧
    usernameErrors [⟨1, "alice", hashPw 2 "pw1234"⟩] "alice" ≠ [] :=
  c4_duplicate_username_rejected ⟨[], [⟨1, "alice", hashPw 2 "pw1234"⟩]⟩
    9 "alice" "hunter22" "hunter22" ⟨1, "alice", hashPw 2 "pw1234"⟩
    (by decide)

/-- Claim C6: for a roll absent from the store, the lookup yields nothing,
and update and delete each respond 404 (the embedding of `NotFoundError`)
while leaving the store — hence every other student record — unchanged. -/
theorem c6_absent_roll_not_found (store : Store) (uid : Nat) (r : Int)
    (formRoll : Option Int) (name dept : String)
    (h : ∀ s ∈ store.students, s.roll ≠ r) :
    get_or_404 store.students r = none ∧
    update_student (.authenticated uid) store r formRoll name dept
      = ⟨.notFound, [], store, .authenticated uid⟩ ∧
    delete_student (.authenticated uid) store r
      = ⟨.notFound, [], store, .authenticated uid⟩ := by
  have hnone : get_or_404 store.students r = none :=
    (get_or_404_eq_none_iff store.students r).mpr h
  refine ⟨hnone, ?_, ?_⟩
  · unfold update_student update_student_handler
    simp [hnone]
  · unfold delete_student delete_student_handler
    simp [hnone]

/-- Claim C6, witness: roll 999 is absent from a store holding roll 101;
lookup, update and delete all fail with 404 and change nothing. -/
theorem c6_absent_roll_not_found_witness :
    get_or_404 [⟨101, "Alice", "CS"⟩] 999 = none ∧
    update_student (.authenticated 1) ⟨[⟨101, "Alice", "CS"⟩], []⟩ 999
        (some 999) "Bob" "EE"
      = ⟨.notFound, [], ⟨[⟨101, "Alice", "CS"⟩], []⟩, .authenticated 1⟩ ∧
    delete_student (.authenticated 1) ⟨[⟨101, "Alice", "CS"⟩], []⟩ 999
      = ⟨.notFound, [], ⟨[⟨101, "Alice", "CS"⟩], []⟩, .authenticated 1⟩ :=
  c6_absent_roll_not_found ⟨[⟨101, "Alice", "CS"⟩], []⟩ 1 999 (some 999)
    "Bob" "EE" (by decide)

/-- Claim C5: for a roll not yet present and valid fields, create followed
by lookup returns exactly the three submitted field values; an update
changing only the name leaves roll and dept unchanged; after a delete,
every later lookup, update or delete of that roll fails with 404. -/
theorem c5_roundtrip (store st1 st2 st3 : Store) (uid : Nat) (r : Int)
    (name dept name2 : String) (hr : r ≠ 0)
    (hn : nameFieldErrors name = []) (hd : nameFieldErrors dept = [])
    (hn2 : nameFieldErrors name2 = [])
    (habs : get_or_404 store.students r = none)
    (h1 : st1
      = (add_student (.authenticated uid) store (some r) name dept).store)
    (h2 : st2
      = (update_student (.authenticated uid) st1 r (some r) name2
          dept).store)
    (h3 : st3 = (delete_student (.authenticated uid) st2 r).store) :
    get_or_404 st1.students r = some ⟨r, name, dept⟩ ∧
    get_or_404 st2.students r = some ⟨r, name2, dept⟩ ∧
    get_or_404 st3.students r = none ∧
    (update_student (.authenticated uid) st3 r (some r) name2
        dept).response = .notFound ∧
    (delete_student (.authenticated uid) st3 r).response = .notFound := by
  have hform := studentFormErrors_eq_nil store.students r name dept hr hn hd
  have hany := any_roll_eq_false store.students r habs
  have hst1 : st1
      = { store with students := store.students ++ [⟨r, name, dept⟩] } := by
    rw [h1]
    unfold add_student add_student_handler insertStudent
    simp [hform, hany]
  have hget1 : get_or_404 st1.students r = some ⟨r, name, dept⟩ := by
    rw [hst1]
    exact get_or_404_append store.students ⟨r, name, dept⟩ habs
  have hform2 := studentFormErrors_eq_nil st1.students r name2 dept hr hn2 hd
  have hst2 : st2
      = { st1 with students := st1.students.map (fun s =>
            if s.roll == r then ⟨s.roll, name2, dept⟩ else s) } := by
    rw [h2]
    unfold update_student update_student_handler
    simp [hget1, hform2]
  have hget2 : get_or_404 st2.students r = some ⟨r, name2, dept⟩ := by
    rw [hst2]
    show get_or_404 (st1.students.map _) r = _
    rw [get_or_404_map_update, hget1]
    rfl
  have hst3 : st3
      = { st2 with students :=
            st2.students.filter (fun t => t.roll != r) } := by
    rw [h3]
    unfold delete_student delete_student_handler
    simp [hget2]
  have hget3 : get_or_404 st3.students r = none := by
    rw [hst3]
    exact get_or_404_filter_out st2.students r
  refine ⟨hget1, hget2, hget3, ?_, ?_⟩
  · unfold update_student update_student_handler
    simp [hget3]
  · unfold delete_student delete_student_handler
    simp [hget3]

/-- Claim C5, witness: the concrete round trip of the spec, with
`roll=101, name=Alice, dept=CS`, then renaming to `Alicia`, then
deleting. -/
theorem c5_roundtrip_witness :
    get_or_404 [⟨101, "Alice", "CS"⟩] 101 = some ⟨101, "Alice", "CS"⟩ ∧
    get_or_404 [⟨101, "Alicia", "CS"⟩] 101 = some ⟨101, "Alicia", "CS"⟩ ∧
    get_or_404 ([] : List Student) 101 = none ∧
    (update_student (.authenticated 1) ⟨[], []⟩ 101 (some 101) "Alicia"
        "CS").response = .notFound ∧
    (delete_student (.authenticated 1) ⟨[], []⟩ 101).response
      = .notFound :=
  c5_roundtrip ⟨[], []⟩ ⟨[⟨101, "Alice", "CS"⟩], []⟩
    ⟨[⟨101, "Alicia", "CS"⟩], []⟩ ⟨[], []⟩ 1 101 "Alice" "CS" "Alicia"
    (by decide) (by decide) (by decide) (by decide) (by decide)
    (by decide) (by decide) (by decide)

/-- Claim C7: whatever roll value the submitted form carries, an update
never changes any stored roll; and when the target exists and the form
validates, the stored record afterwards has the original roll with the
submitted name and dept. -/
theorem c7_update_roll_immutable (store : Store) (uid : Nat) (r : Int)
    (formRoll : Option Int) (name dept : String) :
    ((update_student (.authenticated uid) store r formRoll name
        dept).store.students.map (fun s => s.roll))
      = store.students.map (fun s => s.roll) ∧
    ∀ s0, get_or_404 store.students r = some s0 →
      studentFormErrors store.students formRoll name dept = [] →
      get_or_404 (update_student (.authenticated uid) store r formRoll
          name dept).store.students r
        = some ⟨r, name, dept⟩ := by
  constructor
  · unfold update_student update_student_handler
    cases hfind : get_or_404 store.students r with
    | none => simp [hfind]
    | some s0 =>
      by_cases hform :
          studentFormErrors store.students formRoll name dept = []
      · simp [hfind, hform]
        intro a _
        by_cases h : a.roll = r <;> simp [h]
      · simp [hfind, hform]
  · intro s0 hfind hform
    have hst : (update_student (.authenticated uid) store r formRoll name
          dept).store
        = { store with students := store.students.map (fun s =>
              if s.roll == r then ⟨s.roll, name, dept⟩ else s) } := by
      unfold update_student update_student_handler
      simp [hfind, hform]
    rw [hst]
    show get_or_404 (store.students.map _) r = _
    rw [get_or_404_map_update, hfind]
    have hfind' : List.find? (fun s => s.roll == r) store.students
        = some s0 := hfind
    have heq : s0.roll = r := by
      have := @List.find?_some _ (fun s => s.roll == r) s0 store.students
        hfind'
      simpa using this
    simp [heq]

/-- Claim C7, witness: updating student 101 while the form smuggles in
roll 999 still stores the record under roll 101. -/
theorem c7_update_roll_immutable_witness :
    ((update_student (.authenticated 1) ⟨[⟨101, "Alice", "CS"⟩], []⟩ 101
        (some 999) "Bob" "EE").store.students.map (fun s => s.roll))
      = [(101 : Int)] ∧
    get_or_404 (update_student (.authenticated 1)
        ⟨[⟨101, "Alice", "CS"⟩], []⟩ 101 (some 999) "Bob"
        "EE").store.students 101
      = some ⟨101, "Bob", "EE"⟩ := by
  have h := c7_update_roll_immutable ⟨[⟨101, "Alice", "CS"⟩], []⟩ 1 101
    (some 999) "Bob" "EE"
  exact ⟨by simpa using h.1,
    h.2 ⟨101, "Alice", "CS"⟩ (by decide) (by decide)⟩

/-- Claim C8: registration boundaries, holding the other fields valid —
a username of length 3 is rejected and one of length 4 accepted; length 20
accepted and length 21 rejected; a password of length 5 is rejected and
one of length 6 accepted (the accepted fields additionally passing the
required-nonblank rule, which is a separate validator). -/
theorem c8_registration_boundaries (u3 u4 u20 u21 p5 p6 : String)
    (h3 : u3.length = 3) (h4 : u4.length = 4) (h20 : u20.length = 20)
    (h21 : u21.length = 21) (hp5 : p5.length = 5) (hp6 : p6.length = 6)
    (hb4 : dataRequiredStr u4 = true) (hb20 : dataRequiredStr u20 = true)
    (hb6 : dataRequiredStr p6 = true) :
    registrationFormErrors [] u3 "secret" "secret" ≠ [] ∧
    registrationFormErrors [] u4 "secret" "secret" = [] ∧
    registrationFormErrors [] u20 "secret" "secret" = [] ∧
    registrationFormErrors [] u21 "secret" "secret" ≠ [] ∧
    registrationFormErrors [] "user1" p5 p5 ≠ [] ∧
    registrationFormErrors [] "user1" p6 p6 = [] := by
  have hpwc : passwordErrors "secret" = [] := by decide
  have hcfc : confirmPasswordErrors "secret" "secret" = [] := by decide
  have husr : usernameErrors [] "user1" = [] := by decide
  have hureject : ∀ u : String, lengthOk 4 20 u = false →
      usernameErrors [] u ≠ [] := by
    intro u hlen
    unfold usernameErrors
    cases hdr : dataRequiredStr u with
    | false => simp
    | true => simp [hlen]
  have huaccept : ∀ u : String, dataRequiredStr u = true →
      lengthOk 4 20 u = true → usernameErrors [] u = [] := by
    intro u hdr hlen
    unfold usernameErrors
    simp [hdr, hlen]
  refine ⟨?_, ?_, ?_, ?_, ?_, ?_⟩
  · unfold registrationFormErrors
    rw [hpwc, hcfc, List.append_nil, List.append_nil]
    exact hureject u3 (by unfold lengthOk; rw [h3]; decide)
  · unfold registrationFormErrors
    rw [hpwc, hcfc, List.append_nil, List.append_nil]
    exact huaccept u4 hb4 (by unfold lengthOk; rw [h4]; decide)
  · unfold registrationFormErrors
    rw [hpwc, hcfc, List.append_nil, List.append_nil]
    exact huaccept u20 hb20 (by unfold lengthOk; rw [h20]; decide)
  · unfold registrationFormErrors
    rw [hpwc, hcfc, List.append_nil, List.append_nil]
    exact hureject u21 (by unfold lengthOk; rw [h21]; decide)
  · unfold registrationFormErrors
    rw [husr, List.nil_append]
    have hpne : passwordErrors p5 ≠ [] := by
      unfold passwordErrors
      cases hdr : dataRequiredStr p5 with
      | false => simp
      | true =>
        have : ¬ 6 ≤ p5.length := by rw [hp5]; decide
        simp [this]
    intro h
    exact hpne (List.append_eq_nil.mp h).1
  · unfold registrationFormErrors
    rw [husr, List.nil_append]
    have hpok : passwordErrors p6 = [] := by
      unfold passwordErrors
      have : 6 ≤ p6.length := by rw [hp6]
      simp [hb6, this]
    have hcok : confirmPasswordErrors p6 p6 = [] := by
      unfold confirmPasswordErrors
      simp [hb6]
    rw [hpok, hcok, List.append_nil]

/-- Claim C8, witness: the concrete boundary strings `abc`, `abcd`, a
20-character and a 21-character username, and passwords `abcde` and
`abcdef`. -/
theorem c8_registration_boundaries_witness :
    registrationFormErrors [] "abc" "secret" "secret" ≠ [] ∧
    registrationFormErrors [] "abcd" "secret" "secret" = [] ∧
    registrationFormErrors [] "abcdefghijklmnopqrst" "secret" "secret"
      = [] ∧
    registrationFormErrors [] "abcdefghijklmnopqrstu" "secret" "secret"
      ≠ [] ∧
    registrationFormErrors [] "user1" "abcde" "abcde" ≠ [] ∧
    registrationFormErrors [] "user1" "abcdef" "abcdef" = [] :=
  c8_registration_boundaries "abc" "abcd" "abcdefghijklmnopqrst"
    "abcdefghijklmnopqrstu" "abcde" "abcdef" (by decide) (by decide)
    (by decide) (by decide) (by decide) (by decide) (by decide)
    (by decide) (by decide)

end Lab8
